import Mathlib

/-!
Verification of the ai-cloud-storage frontend against its specification.

The definitions below are shallow embeddings of the TypeScript source:

- the Next.js proxy route handlers GET / POST / DELETE
  (frontend/src/contexts/AuthContext.tsx, second embedded file, lines 92-205);
- the axios response interceptor of the ApiClient class
  (frontend/src/lib/api/client.ts, lines 31-41);
- the axios request and response interceptors of the api-client module
  (frontend/src/lib/api-client.ts, lines 14-41);
- the request paths of the API client modules
  (frontend/src/lib/api.ts, lib/api/auth.ts, lib/api/storage.ts,
  unnamed/part_013, unnamed/part_014);
- the multipart chunking loop of FileUploader
  (frontend/src/lib/utils/upload.ts, lines 34-45 and 96-128);
- the route middleware (frontend/src/middleware.ts, lines 20-46);
- toggleFileSelection (frontend/components/FileManager.tsx, lines 108-116);
- formatSize (unnamed/part_008, lines 14-25);
- the client-side ProcessingStatus types (unnamed/part_013 lines 8-11 and
  lib/api/types.ts lines 92-97) and the ai_jobs defaults (db/init.sql line 115).

JavaScript strings returned by localStorage.getItem, cookies.get and
headers.get are modelled as Option String (none = null / undefined), and the
JavaScript truthiness test used on them (null, undefined and the empty string
are falsy) is modelled by jsTruthyStr.  JSON payloads are modelled by the
inductive type Json; numbers are modelled as integers, which is exact for the
values these claims touch.
-/

/-- JSON values as handled by the route handlers and interceptors.  Object
fields are a list of key-value pairs in source order. -/
inductive Json where
  | null : Json
  | bool (b : Bool) : Json
  | num (n : Int) : Json
  | str (s : String) : Json
  | arr (elems : List Json) : Json
  | obj (fields : List (String × Json)) : Json

/-- Field access on a JSON value, modelling the optional-chaining access
data?.field in the TypeScript source: none when the value is not an object or
the key is absent. -/
def Json.getField : Json → String → Option Json
  | .obj fields, key => fields.lookup key
  | _, _ => none

/-- JavaScript truthiness of a JSON value: null, false, 0 and the empty
string are falsy, every array and object is truthy. -/
def Json.truthy : Json → Bool
  | .null => false
  | .bool b => b
  | .num n => n != 0
  | .str s => s != ""
  | .arr _ => true
  | .obj _ => true

/-- JavaScript truthiness of a nullable string (localStorage.getItem,
request.headers.get, request.cookies.get): null / undefined and the empty
string are falsy. -/
def jsTruthyStr : Option String → Bool
  | none => false
  | some s => s != ""

/-- Model of the JavaScript startsWith test on strings. -/
def strStartsWith (s p : String) : Bool := p.data.isPrefixOf s.data

/-- A backend (FastAPI) response as seen by the proxy handlers through fetch:
the HTTP status, the JSON parse of the body (response.json) and the raw body
text (response.text). -/
structure BackendResponse where
  status : Nat
  body : Json
  bodyText : String

/-- The fetch Response.ok flag: status in the range 200-299. -/
def BackendResponse.ok (r : BackendResponse) : Bool :=
  decide (200 ≤ r.status) && decide (r.status < 300)

/-- What the proxy handler sends back to the browser: a status code and an
optional JSON body (none models an empty body, as in the 204 branch of the
DELETE handler). -/
structure ProxyResponse where
  status : Nat
  body : Option Json

/-- Outcome of the fetch call inside a proxy handler: either a backend
response, or a thrown error (network failure or any exception inside the
try block) caught by the catch clause, carrying the error message. -/
inductive FetchOutcome where
  | success (resp : BackendResponse) : FetchOutcome
  | failure (message : String) : FetchOutcome

/-- The error body built by the catch clause of each proxy handler
(AuthContext.tsx second embedded file, lines 115-118, 167-170, 200-203):
an object with an error field holding the fixed string Internal Server Error
and a details field holding the exception message. -/
def internalErrorEnvelope (message : String) : Json :=
  Json.obj [("error", Json.str "Internal Server Error"), ("details", Json.str message)]

/-- The error body built by the POST handler for a non-ok backend response
(AuthContext.tsx second embedded file, lines 155-158): an object with an
error field holding the fixed string Backend Error and a details field
holding the raw backend response text. -/
def backendErrorEnvelope (text : String) : Json :=
  Json.obj [("error", Json.str "Backend Error"), ("details", Json.str text)]

/-- The GET proxy handler (lines 92-120): parses the backend body as JSON and
returns it with NextResponse.json (default status 200) without inspecting the
backend status; the catch clause returns the internal error envelope with
status 500. -/
def proxyGET : FetchOutcome → ProxyResponse
  | .success r => { status := 200, body := some r.body }
  | .failure msg => { status := 500, body := some (internalErrorEnvelope msg) }

/-- The POST proxy handler (lines 122-172): for a non-ok backend response it
reads the body as text and returns the backend error envelope with the
backend status; for an ok response it returns the parsed JSON body; the
catch clause returns the internal error envelope with status 500. -/
def proxyPOST : FetchOutcome → ProxyResponse
  | .success r =>
      if r.ok then { status := 200, body := some r.body }
      else { status := r.status, body := some (backendErrorEnvelope r.bodyText) }
  | .failure msg => { status := 500, body := some (internalErrorEnvelope msg) }

/-- The DELETE proxy handler (lines 174-205): a 204 backend response is
returned as an empty 204 response; otherwise the parsed JSON body is
returned (default status 200); the catch clause returns the internal error
envelope with status 500. -/
def proxyDELETE : FetchOutcome → ProxyResponse
  | .success r =>
      if r.status == 204 then { status := 204, body := none }
      else { status := 200, body := some r.body }
  | .failure msg => { status := 500, body := some (internalErrorEnvelope msg) }

/-- Modelled from the spec: the error-envelope shape the specification
describes, namely a JSON object whose error field is itself an object with
fields code, message and details.  Used to compare the envelopes actually
built by the code against the shape the specification claims. -/
def specErrorEnvelopeShape (j : Json) : Bool :=
  match Json.getField j "error" with
  | some (Json.obj fields) =>
      (fields.lookup "code").isSome && (fields.lookup "message").isSome
        && (fields.lookup "details").isSome
  | _ => false

/-- The error.response value seen by the axios response interceptor of
ApiClient (lib/api/client.ts): the backend status and parsed body. -/
structure AxiosErrorResponse where
  status : Nat
  data : Json

/-- An axios error: response is none for network failures. -/
structure AxiosError where
  response : Option AxiosErrorResponse

/-- The rejection value built by the ApiClient response interceptor:
an ApiResponse with an error field and a status field. -/
structure InterceptedError where
  error : Json
  status : Nat

/-- The ApiClient response interceptor (lib/api/client.ts lines 32-41):
error := error.response?.data?.detail or the fixed fallback message when that
is absent or falsy, status := error.response?.status or 500 when that is
absent or falsy (0). -/
def interceptResponseError (e : AxiosError) : InterceptedError :=
  match e.response with
  | none => { error := Json.str "An unexpected error occurred", status := 500 }
  | some r =>
      let detail := (Json.getField r.data "detail").getD Json.null
      { error := if detail.truthy then detail else Json.str "An unexpected error occurred",
        status := if r.status == 0 then 500 else r.status }

/-- The request headers relevant to the bearer-token claims; only the
Authorization header is tracked (none = header absent). -/
structure RequestHeaders where
  authorization : Option String

/-- The api-client request interceptor (lib/api-client.ts lines 14-25): reads
the auth_token entry of localStorage and, when it is truthy, sets the
Authorization header to the string Bearer followed by a space and the token;
otherwise the headers are left unchanged. -/
def apiClientRequestInterceptor (storedToken : Option String)
    (headers : RequestHeaders) : RequestHeaders :=
  match storedToken with
  | some t => if t != "" then { headers with authorization := some ("Bearer " ++ t) } else headers
  | none => headers

/-- The Authorization header the proxy handlers forward to the backend
(AuthContext.tsx second embedded file, lines 103-105, 141-143, 185-187): the
incoming header verbatim when it is truthy, otherwise no header. -/
def forwardedAuthHeader (incoming : Option String) : Option String :=
  if jsTruthyStr incoming then incoming else none

/-- The part of an axios request config read and written by the api-client
response interceptor: the custom retry marker originalRequest.retryFlag
(written as an underscore-prefixed field in the source). -/
structure AxiosRequestConfig where
  retryFlag : Bool
deriving DecidableEq

/-- What the api-client response interceptor does with a failed response:
either re-issue the request with an updated config, or reject the error. -/
inductive InterceptorOutcome where
  | reissue (config : AxiosRequestConfig) : InterceptorOutcome
  | reject : InterceptorOutcome
deriving DecidableEq

/-- The api-client response interceptor (lib/api-client.ts lines 28-41): on a
401 error response whose config does not carry the retry marker, it sets the
marker and re-issues the original request; every other error is rejected. -/
def apiClientResponseErrorInterceptor (status : Option Nat)
    (originalRequest : AxiosRequestConfig) : InterceptorOutcome :=
  if status == some 401 && !originalRequest.retryFlag then
    InterceptorOutcome.reissue { retryFlag := true }
  else InterceptorOutcome.reject

/-- The retry count configured on the useHealth query
(frontend/src/hooks/useBuckets.ts second embedded file, line 69). -/
def useHealthRetryCount : Nat := 3

/-- Request paths of the authAPI module in frontend/src/lib/api.ts
(lines 40-65): login, register, getProfile (logout performs no request). -/
def apiTs_authAPI_paths : List String :=
  ["/api/v1/auth/login", "/api/v1/auth/register", "/api/v1/auth/profile"]

/-- Request paths of the documentAPI module in frontend/src/lib/api.ts
(lines 67-115): uploadDocument, listDocuments, getDocument / deleteDocument,
searchDocuments. -/
def apiTs_documentAPI_paths (documentId : String) : List String :=
  ["/api/v1/documents/upload", "/api/v1/documents",
   "/api/v1/documents/" ++ documentId, "/api/v1/documents/search"]

/-- Request paths of the storageAPI module in frontend/src/lib/api.ts
(lines 117-133): getPresignedUrl, listFiles. -/
def apiTs_storageAPI_paths : List String :=
  ["/api/v1/storage/presigned-url", "/api/v1/storage/list"]

/-- Request paths of the authAPI module in frontend/src/lib/api/auth.ts. -/
def authAPI_paths : List String :=
  ["/api/v1/auth/login", "/api/v1/auth/register", "/api/v1/auth/profile",
   "/api/v1/auth/password-reset", "/api/v1/auth/password-reset/confirm",
   "/api/v1/auth/refresh", "/api/v1/auth/logout"]

/-- Request paths of the searchAPI module (unnamed/part_014). -/
def searchAPI_paths : List String :=
  ["/api/v1/search", "/api/v1/search/feedback"]

/-- Request paths of the documentAPI module (unnamed/part_013):
processDocument, processBatch, processStoredDocument,
deleteProcessedDocument. -/
def documentAPI_paths (bucketName objectName : String) : List String :=
  ["/api/v1/document/process", "/api/v1/document/process/batch",
   "/api/v1/processing/process",
   "/api/v1/processing/" ++ bucketName ++ "/objects/" ++ objectName]

/-- Request paths of the bucket and object operations of the storageAPI
module in frontend/src/lib/api/storage.ts (lines 98-200): listBuckets /
createBucket, deleteBucket, listObjects, getUploadConfig, deleteObject /
getObjectMetadata, updateObjectMetadata, getDownloadUrl. -/
def storageAPI_v1_paths (bucketName key : String) : List String :=
  ["/api/v1/storage/buckets",
   "/api/v1/storage/buckets/" ++ bucketName,
   "/api/v1/storage/buckets/" ++ bucketName ++ "/objects",
   "/api/v1/storage/buckets/" ++ bucketName ++ "/upload",
   "/api/v1/storage/buckets/" ++ bucketName ++ "/objects/" ++ key,
   "/api/v1/storage/buckets/" ++ bucketName ++ "/objects/" ++ key ++ "/metadata",
   "/api/v1/storage/buckets/" ++ bucketName ++ "/objects/" ++ key ++ "/download"]

/-- Request paths of the later storageAPI operations in
frontend/src/lib/api/storage.ts (lines 202-321): batchOperations, copyObject,
moveObject, getStorageAnalytics, bucket policy, bucket lifecycle, object
tags, and the multipart upload helpers. -/
def storageAPI_extra_paths (bucketName key : String) : List String :=
  ["/storage/batch", "/storage/copy", "/storage/move", "/storage/analytics",
   "/storage/buckets/" ++ bucketName ++ "/policy",
   "/storage/buckets/" ++ bucketName ++ "/lifecycle",
   "/storage/buckets/" ++ bucketName ++ "/objects/" ++ key ++ "/tags",
   "/storage/multipart/create", "/storage/multipart/complete",
   "/storage/multipart/abort"]

/-- The chunk list built by the while loop of FileUploader.uploadMultipart
(upload.ts lines 104-111).  The loop pushes file.slice(offset, offset +
chunkSize) for offset = 0, chunkSize, 2 * chunkSize, ... while offset is
below the file size; pushing the first slice (take chunkSize) and continuing
on the remainder (drop chunkSize) yields exactly the same list of slices.
Bytes are modelled as naturals.  A chunk size of 0 would make the source
loop spin forever; the embedding returns [] in that case and every theorem
about it assumes a positive chunk size. -/
def buildChunks (file : List Nat) (chunkSize : Nat) : List (List Nat) :=
  if file.length = 0 ∨ chunkSize = 0 then []
  else file.take chunkSize :: buildChunks (file.drop chunkSize) chunkSize
termination_by file.length
decreasing_by simp; omega

/-- The totalChunks field of the FileUploader constructor (upload.ts line
43): Math.ceil(file.size / chunkSize), modelled with exact rational
division. -/
def totalChunks (size chunkSize : Nat) : Nat :=
  ⌈(size : ℚ) / (chunkSize : ℚ)⌉₊

/-- The status values of the ProcessingStatus interface of the client
processing module (unnamed/part_013 lines 8-11): the union type admits
exactly the strings success and error. -/
def processingStatusValues : List String := ["success", "error"]

/-- Modelled from the spec: the four-value status enum
(pending / processing / completed / failed) that the specification claims
for AI processing jobs.  Used to compare the status values actually declared
by the code against the claimed enum. -/
def specAIJobStatusEnum : List String :=
  ["pending", "processing", "completed", "failed"]

/-- The default of the status column of the ai_jobs table
(db/init.sql line 115); the column is an unconstrained VARCHAR. -/
def aiJobsStatusDefault : String := "pending"

/-- The protected path prefixes of the route middleware
(frontend/src/middleware.ts lines 5-10). -/
def protectedPaths : List String :=
  ["/dashboard", "/storage", "/settings", "/profile"]

/-- The auth-only path prefixes of the route middleware
(frontend/src/middleware.ts lines 13-18). -/
def authPaths : List String :=
  ["/login", "/register", "/forgot-password", "/reset-password"]

/-- A request as seen by the middleware: the token cookie value (none =
cookie absent) and the pathname. -/
structure MwRequest where
  tokenCookie : Option String
  pathname : String

/-- The middleware result: a redirect to /login carrying the original
pathname in the from query parameter, a redirect to /dashboard, or
NextResponse.next (pass through unchanged). -/
inductive MwResult where
  | redirectLogin (fromPath : String) : MwResult
  | redirectDashboard : MwResult
  | next : MwResult
deriving DecidableEq

/-- The route middleware (frontend/src/middleware.ts lines 20-46).  The
token test is the JavaScript truthiness of request.cookies.get.value, and
the path tests use Array.some with String.startsWith.  The final api-path
branch of the source returns NextResponse.next exactly like the fallthrough,
so both collapse to next here. -/
def middleware (request : MwRequest) : MwResult :=
  let token := jsTruthyStr request.tokenCookie
  let isProtectedPath := protectedPaths.any (fun p => strStartsWith request.pathname p)
  let isAuthPath := authPaths.any (fun p => strStartsWith request.pathname p)
  if !token && isProtectedPath then MwResult.redirectLogin request.pathname
  else if token && isAuthPath then MwResult.redirectDashboard
  else MwResult.next

/-- toggleFileSelection (frontend/components/FileManager.tsx lines 108-116):
copies the selection set, then deletes the file id if present and adds it
otherwise. -/
def toggleFileSelection (selectedFiles : Finset String) (fileId : String) : Finset String :=
  if fileId ∈ selectedFiles then selectedFiles.erase fileId
  else insert fileId selectedFiles

/-- The units array of formatSize (unnamed/part_008 line 15). -/
def formatSizeUnits : List String := ["B", "KB", "MB", "GB", "TB"]

/-- The while loop of formatSize (unnamed/part_008 lines 19-22): while the
size is at least 1024 and the unit index is below the last unit, divide the
size by 1024 and increment the index.  Sizes are modelled as exact
rationals; division of a binary floating-point number by 1024 only adjusts
the exponent, so this is faithful for the inputs the claims range over. -/
def formatSizeLoop (size : ℚ) (unitIndex : Nat) : ℚ × Nat :=
  if 1024 ≤ size ∧ unitIndex < formatSizeUnits.length - 1 then
    formatSizeLoop (size / 1024) (unitIndex + 1)
  else (size, unitIndex)
termination_by formatSizeUnits.length - 1 - unitIndex
decreasing_by
  have h5 : formatSizeUnits.length = 5 := rfl
  omega

/-- formatSize (unnamed/part_008 lines 14-25): run the loop from the raw
byte count and unit index 0; the rendered string shows the resulting scaled
size with toFixed(1) and the unit at the resulting index, so the pair below
captures everything the claims are about. -/
def formatSize (bytes : ℚ) : ℚ × Nat := formatSizeLoop bytes 0

/-- Appending a suffix preserves a startsWith test that already holds. -/
lemma strStartsWith_append (a b p : String) (h : strStartsWith a p = true) :
    strStartsWith (a ++ b) p = true := by
  unfold strStartsWith at h ⊢
  rw [String.data_append]
  simp only [ List.isPrefixOf_iff_prefix] at h ⊢
  exact h.trans (List.prefix_append _ _)

/-- A path that starts with /storage/ cannot also start with /api/v1/,
whatever its remaining characters are. -/
lemma storage_path_not_v1 (s : String) (h : strStartsWith s "/storage/" = true) :
    strStartsWith s "/api/v1/" = false := by
  unfold strStartsWith at h ⊢
  rw [ List.isPrefixOf_iff_prefix] at h
  by_contra hc
  rw [Bool.not_eq_false, List.isPrefixOf_iff_prefix] at hc
  have h1 := List.prefix_iff_eq_take.mp hc
  have h2 := List.prefix_iff_eq_take.mp h
  have hA : "/api/v1/".data.length = 8 := rfl
  have hB : "/storage/".data.length = 9 := rfl
  rw [hA] at h1
  rw [hB] at h2
  have h3 : "/api/v1/".data = List.take 8 "/storage/".data := by
    rw [h2, List.take_take]
    norm_num
    exact h1
  exact absurd h3 (by decide)

/-- Every documentAPI path of lib/api.ts lies under /api/v1/. -/
lemma apiTs_documentAPI_paths_v1 (documentId : String) :
    (apiTs_documentAPI_paths documentId).all (fun p => strStartsWith p "/api/v1/") = true := by
  simp only [apiTs_documentAPI_paths, List.all_cons, List.all_nil, Bool.and_true,
    Bool.and_eq_true]
  refine ⟨by decide, by decide, ?_, by decide⟩
  exact strStartsWith_append _ _ _ (by decide)

/-- Every documentAPI path of unnamed/part_013 lies under /api/v1/. -/
lemma documentAPI_paths_v1 (bucketName objectName : String) :
    (documentAPI_paths bucketName objectName).all (fun p => strStartsWith p "/api/v1/") = true := by
  simp only [documentAPI_paths, List.all_cons, List.all_nil, Bool.and_true, Bool.and_eq_true]
  refine ⟨by decide, by decide, by decide, ?_⟩
  repeat apply strStartsWith_append
  decide

/-- Every bucket and object CRUD path of lib/api/storage.ts lies under
/api/v1/. -/
lemma storageAPI_v1_paths_v1 (bucketName key : String) :
    (storageAPI_v1_paths bucketName key).all (fun p => strStartsWith p "/api/v1/") = true := by
  simp only [storageAPI_v1_paths, List.all_cons, List.all_nil, Bool.and_true, Bool.and_eq_true]
  refine ⟨by decide, ?_, ?_, ?_, ?_, ?_, ?_⟩ <;>
    · repeat apply strStartsWith_append
      decide

/-- Every later storageAPI path of lib/api/storage.ts lies under /storage/. -/
lemma storageAPI_extra_paths_storage (bucketName key : String) :
    (storageAPI_extra_paths bucketName key).all (fun p => strStartsWith p "/storage/") = true := by
  simp only [storageAPI_extra_paths, List.all_cons, List.all_nil, Bool.and_true,
    Bool.and_eq_true]
  refine ⟨by decide, by decide, by decide, by decide, ?_, ?_, ?_, by decide, by decide,
    by decide⟩ <;>
    · repeat apply strStartsWith_append
      decide

/-- No later storageAPI path of lib/api/storage.ts lies under /api/v1/. -/
lemma storageAPI_extra_paths_not_v1 (bucketName key : String) :
    (storageAPI_extra_paths bucketName key).all (fun p => !(strStartsWith p "/api/v1/")) = true := by
  rw [List.all_eq_true]
  intro p hp
  have hs := List.all_eq_true.mp (storageAPI_extra_paths_storage bucketName key) p hp
  show (!(strStartsWith p "/api/v1/")) = true
  rw [Bool.not_eq_true']
  exact storage_path_not_v1 p hs

/-- Concatenating the chunks in order restores the file. -/
lemma buildChunks_flatten (file : List Nat) (chunkSize : Nat) (hc : 0 < chunkSize) :
    (buildChunks file chunkSize).flatten = file := by
  induction file, chunkSize using buildChunks.induct with
  | case1 file c h =>
    rw [buildChunks, if_pos h]
    rcases h with h | h
    · simpa using (List.length_eq_zero.mp h).symm
    · omega
  | case2 file c h ih =>
    rw [buildChunks, if_neg h]
    rw [List.flatten_cons, ih hc, List.take_append_drop]

/-- The number of chunks is the rounded-up quotient of the length, written
with truncated natural division. -/
lemma buildChunks_length (file : List Nat) (chunkSize : Nat) (hc : 0 < chunkSize) :
    (buildChunks file chunkSize).length = (file.length + chunkSize - 1) / chunkSize := by
  induction file, chunkSize using buildChunks.induct with
  | case1 file c h =>
    rw [buildChunks, if_pos h]
    rcases h with h | h
    · rw [h]; simp [Nat.div_eq_of_lt (by omega : c - 1 < c)]
    · omega
  | case2 file c h ih =>
    rw [buildChunks, if_neg h]
    push_neg at h
    obtain ⟨hlen, hc0⟩ := h
    simp only [List.length_cons, ih hc, List.length_drop]
    have hl : 0 < file.length := Nat.pos_of_ne_zero hlen
    rcases le_or_lt c file.length with hle | hgt
    · have e1 : file.length - c + c - 1 = file.length - 1 := by omega
      rw [e1]
      have e2 : file.length + c - 1 = (file.length - 1) + c := by omega
      rw [e2, Nat.add_div_right _ hc]
    · have e1 : file.length - c = 0 := by omega
      rw [e1]
      have e2 : (0 + c - 1) / c = 0 := Nat.div_eq_of_lt (by omega)
      have e3 : (file.length + c - 1) / c = 1 :=
        Nat.div_eq_of_lt_le (by omega) (by omega)
      rw [e2, e3]

/-- The ceiling of an exact rational quotient of naturals equals the usual
rounded-up natural division. -/
lemma ceil_div_eq (n c : Nat) (hc : 0 < c) :
    ⌈(n : ℚ) / (c : ℚ)⌉₊ = (n + c - 1) / c := by
  rcases Nat.eq_zero_or_pos n with h0 | hn
  · subst h0
    simp only [Nat.cast_zero, zero_div, Nat.ceil_zero, Nat.zero_add]
    exact (Nat.div_eq_of_lt (by omega)).symm
  · have hk : 0 < (n + c - 1) / c := Nat.div_pos (by omega) hc
    have hdm := Nat.div_add_mod (n + c - 1) c
    rw [Nat.mul_comm c ((n + c - 1) / c)] at hdm
    have hmlt : (n + c - 1) % c < c := Nat.mod_lt _ hc
    have hcq : (0 : ℚ) < (c : ℚ) := by exact_mod_cast hc
    rw [Nat.ceil_eq_iff (by omega)]
    constructor
    · rw [lt_div_iff₀ hcq]
      have e1 : ((n + c - 1) / c - 1) * c < n := by
        rw [Nat.sub_one_mul]
        omega
      exact_mod_cast e1
    · rw [div_le_iff₀ hcq]
      have e2 : n ≤ ((n + c - 1) / c) * c := by omega
      exact_mod_cast e2

/-- Invariant of the formatSize loop: starting from a unit index of at most
4, the loop ends with a unit index of at most 4, and whenever it ends below
index 4 the remaining size is below 1024. -/
lemma formatSizeLoop_spec (n : Nat) : ∀ (size : ℚ) (i : Nat), i ≤ 4 → 4 - i ≤ n →
    (formatSizeLoop size i).2 ≤ 4 ∧
    ((formatSizeLoop size i).2 < 4 → (formatSizeLoop size i).1 < 1024) := by
  induction n with
  | zero =>
    intro size i hi hn
    rw [formatSizeLoop.eq_def]
    have h5 : formatSizeUnits.length = 5 := rfl
    have hng : ¬(1024 ≤ size ∧ i < formatSizeUnits.length - 1) := by
      rintro ⟨-, h⟩; omega
    rw [if_neg hng]
    refine ⟨hi, fun h => absurd ?_ (by omega : ¬ i < 4)⟩
    exact h
  | succ m ih =>
    intro size i hi hn
    rw [formatSizeLoop.eq_def]
    have h5 : formatSizeUnits.length = 5 := rfl
    by_cases hc : 1024 ≤ size ∧ i < formatSizeUnits.length - 1
    · rw [if_pos hc]
      exact ih (size / 1024) (i + 1) (by omega) (by omega)
    · rw [if_neg hc]
      refine ⟨hi, fun hlt => ?_⟩
      replace hlt : i < 4 := hlt
      rw [not_and, h5] at hc
      show size < 1024
      by_contra hge
      push_neg at hge
      exact hc hge (by omega)

/-- Claim C1, counterexample: the POST proxy handler does not pass a non-2xx
backend body through unmodified.  For a backend response with status 500 and
JSON body the string upstream body, the handler returns the wrapped Backend
Error envelope instead of the backend body. -/
theorem proxyPOST_wraps_error_body_counterexample :
    (proxyPOST (FetchOutcome.success ⟨500, Json.str "upstream body", "upstream text"⟩)).body
      = some (backendErrorEnvelope "upstream text")
    ∧ (proxyPOST (FetchOutcome.success ⟨500, Json.str "upstream body", "upstream text"⟩)).body
      ≠ some (Json.str "upstream body") :=
  ⟨rfl, fun h => Json.noConfusion (Option.some.inj h)⟩

/-- Claim C1, amended: the GET and DELETE proxy handlers return the parsed
backend JSON body unmodified for every backend status (DELETE answers a 204
with an empty 204); the POST handler returns the body unmodified exactly for
ok (2xx) backend responses, and wraps every non-2xx backend response in a
Backend Error envelope built from the raw backend text. -/
theorem proxy_body_passthrough_cases (r : BackendResponse) :
    (proxyGET (FetchOutcome.success r)).body = some r.body
    ∧ (proxyDELETE (FetchOutcome.success r)).body
        = (if r.status == 204 then none else some r.body)
    ∧ (proxyPOST (FetchOutcome.success r)).body
        = some (if r.ok then r.body else backendErrorEnvelope r.bodyText) := by
  refine ⟨rfl, ?_, ?_⟩
  · cases hc : r.status == 204 <;> simp [proxyDELETE, hc]
  · cases hc : r.ok <;> simp [proxyPOST, hc]

/-- Claim C2, counterexample: the error body produced for a failed proxy GET
is a flat envelope whose error field is the string Internal Server Error,
not an object with fields code, message and details as the claim states. -/
theorem error_envelope_shape_counterexample :
    (proxyGET (FetchOutcome.failure "connection refused")).body
      = some (internalErrorEnvelope "connection refused")
    ∧ specErrorEnvelopeShape (internalErrorEnvelope "connection refused") = false :=
  ⟨rfl, rfl⟩

/-- Claim C2, amended: errors are not mapped to the nested envelope shape.
The proxy handlers produce objects whose error field is a fixed string
(Internal Server Error, or Backend Error for non-2xx POST responses) next
to a details string, so a proxy error body never has the nested shape with
code, message and details; the ApiClient interceptor rejects with a flat
record holding an error value and a status, where the error value is the
backend-supplied detail value forwarded verbatim when that value is truthy
and a fixed fallback message otherwise - the interceptor builds no nested
shape of its own, and the shape of a forwarded detail is whatever the
backend sent. -/
theorem error_envelopes_flat (message text : String) (r : AxiosErrorResponse) (d : Json) :
    (Json.getField (internalErrorEnvelope message) "error"
        = some (Json.str "Internal Server Error")
      ∧ Json.getField (internalErrorEnvelope message) "details" = some (Json.str message)
      ∧ specErrorEnvelopeShape (internalErrorEnvelope message) = false
      ∧ Json.getField (backendErrorEnvelope text) "error" = some (Json.str "Backend Error")
      ∧ Json.getField (backendErrorEnvelope text) "details" = some (Json.str text)
      ∧ specErrorEnvelopeShape (backendErrorEnvelope text) = false)
    ∧ (Json.getField r.data "detail" = none →
        (interceptResponseError ⟨some r⟩).error = Json.str "An unexpected error occurred")
    ∧ (Json.getField r.data "detail" = some d → d.truthy = false →
        (interceptResponseError ⟨some r⟩).error = Json.str "An unexpected error occurred")
    ∧ (Json.getField r.data "detail" = some d → d.truthy = true →
        (interceptResponseError ⟨some r⟩).error = d) := by
  refine ⟨⟨rfl, rfl, rfl, rfl, rfl, rfl⟩, ?_, ?_, ?_⟩
  · intro hnone
    have hd : (Json.getField r.data "detail").getD Json.null = Json.null := by
      rw [hnone]
      rfl
    simp [interceptResponseError, hd, Json.truthy]
  · intro hsome hfalsy
    have hd : (Json.getField r.data "detail").getD Json.null = d := by
      rw [hsome]
      rfl
    simp [interceptResponseError, hd, hfalsy]
  · intro hsome htruthy
    have hd : (Json.getField r.data "detail").getD Json.null = d := by
      rw [hsome]
      rfl
    simp [interceptResponseError, hd, htruthy]

/-- Witness for the amended claim C2 at three concrete backend errors: no
detail field, a falsy (empty-string) detail, and a truthy detail forwarded
verbatim. -/
theorem error_envelopes_flat_witness :
    (interceptResponseError ⟨some ⟨404, Json.obj []⟩⟩).error
      = Json.str "An unexpected error occurred"
    ∧ (interceptResponseError ⟨some ⟨404, Json.obj [("detail", Json.str "")]⟩⟩).error
      = Json.str "An unexpected error occurred"
    ∧ (interceptResponseError ⟨some ⟨404, Json.obj [("detail", Json.str "bad request")]⟩⟩).error
      = Json.str "bad request" :=
  ⟨(error_envelopes_flat "m" "t" ⟨404, Json.obj []⟩ Json.null).2.1 rfl,
   (error_envelopes_flat "m" "t" ⟨404, Json.obj [("detail", Json.str "")]⟩
      (Json.str "")).2.2.1 rfl rfl,
   (error_envelopes_flat "m" "t" ⟨404, Json.obj [("detail", Json.str "bad request")]⟩
      (Json.str "bad request")).2.2.2 rfl rfl⟩

/-- Claim C3, counterexample: with the empty string stored under auth_token
(a token entry is present in localStorage), the request interceptor adds no
Authorization header, and the proxy drops rather than forwards an incoming
empty Authorization header. -/
theorem auth_header_empty_token_counterexample :
    apiClientRequestInterceptor (some "") { authorization := none }
      = { authorization := none }
    ∧ (some "" : Option String) ≠ none
    ∧ forwardedAuthHeader (some "") = none
    ∧ forwardedAuthHeader (some "") ≠ some "" :=
  ⟨rfl, by decide, rfl, by decide⟩

/-- Claim C3, amended: the api-client request interceptor sets the
Authorization header to Bearer followed by the stored token exactly when a
non-empty token is stored (and leaves the headers unchanged when the stored
value is absent or empty); the proxy handlers forward the incoming
Authorization header verbatim exactly when it is present and non-empty. -/
theorem auth_header_attachment (tok hdr : Option String) (h : RequestHeaders) :
    (∀ t, tok = some t → t ≠ "" →
        apiClientRequestInterceptor tok h = { h with authorization := some ("Bearer " ++ t) })
    ∧ (jsTruthyStr tok = false → apiClientRequestInterceptor tok h = h)
    ∧ (∀ s, hdr = some s → s ≠ "" → forwardedAuthHeader hdr = some s)
    ∧ (jsTruthyStr hdr = false → forwardedAuthHeader hdr = none) := by
  refine ⟨?_, ?_, ?_, ?_⟩
  · rintro t rfl ht
    have hb : (t != "") = true := by simpa using ht
    simp [apiClientRequestInterceptor, hb]
  · intro hf
    cases tok with
    | none => rfl
    | some t =>
      simp only [jsTruthyStr, bne_eq_false_iff_eq] at hf
      simp [apiClientRequestInterceptor, hf]
  · rintro s rfl hs
    have hb : (s != "") = true := by simpa using hs
    simp [forwardedAuthHeader, jsTruthyStr, hb]
  · intro hf
    simp [forwardedAuthHeader, hf]

/-- Witness for the amended claim C3 at a concrete stored token and a
concrete incoming header. -/
theorem auth_header_attachment_witness :
    apiClientRequestInterceptor (some "tok123") { authorization := none }
      = { authorization := some ("Bearer " ++ "tok123") }
    ∧ forwardedAuthHeader (some "Bearer abc") = some "Bearer abc" :=
  ⟨(auth_header_attachment (some "tok123") (some "Bearer abc")
      { authorization := none }).1 "tok123" rfl (by decide),
   (auth_header_attachment (some "tok123") (some "Bearer abc")
      { authorization := none }).2.2.1 "Bearer abc" rfl (by decide)⟩

/-- Claim C4, counterexample: the batchOperations request path of
lib/api/storage.ts is /storage/batch, which does not begin with /api/v1/. -/
theorem storage_batch_path_counterexample :
    (storageAPI_extra_paths "assets" "report.pdf").contains "/storage/batch" = true
    ∧ strStartsWith "/storage/batch" "/api/v1/" = false := by decide

/-- Claim C4, amended: every request path of the auth, documents and search
client modules and of the bucket and object CRUD operations of
lib/api/storage.ts begins with /api/v1/, while the later storage operations
of lib/api/storage.ts (batch, copy, move, analytics, policy, lifecycle,
tags, multipart) use paths that begin with /storage/ and not with
/api/v1/. -/
theorem api_path_prefixes (documentId bucketName objectName key : String) :
    apiTs_authAPI_paths.all (fun p => strStartsWith p "/api/v1/") = true
    ∧ (apiTs_documentAPI_paths documentId).all (fun p => strStartsWith p "/api/v1/") = true
    ∧ apiTs_storageAPI_paths.all (fun p => strStartsWith p "/api/v1/") = true
    ∧ authAPI_paths.all (fun p => strStartsWith p "/api/v1/") = true
    ∧ searchAPI_paths.all (fun p => strStartsWith p "/api/v1/") = true
    ∧ (documentAPI_paths bucketName objectName).all (fun p => strStartsWith p "/api/v1/") = true
    ∧ (storageAPI_v1_paths bucketName key).all (fun p => strStartsWith p "/api/v1/") = true
    ∧ (storageAPI_extra_paths bucketName key).all (fun p => strStartsWith p "/storage/") = true
    ∧ (storageAPI_extra_paths bucketName key).all (fun p => !(strStartsWith p "/api/v1/")) = true :=
  ⟨by decide, apiTs_documentAPI_paths_v1 documentId, by decide, by decide, by decide,
   documentAPI_paths_v1 bucketName objectName, storageAPI_v1_paths_v1 bucketName key,
   storageAPI_extra_paths_storage bucketName key, storageAPI_extra_paths_not_v1 bucketName key⟩

/-- Claim C5: for every file and every positive chunk size, the multipart
chunking loop produces exactly the ceiling of size over chunkSize many
contiguous chunks (the totalChunks value computed by the FileUploader
constructor), and their in-order concatenation is the original file, so the
object assembled from the parts is byte-identical to the input. -/
theorem multipart_chunking_roundtrip (file : List Nat) (chunkSize : Nat)
    (hc : 0 < chunkSize) :
    (buildChunks file chunkSize).length = totalChunks file.length chunkSize
    ∧ (buildChunks file chunkSize).flatten = file := by
  refine ⟨?_, buildChunks_flatten file chunkSize hc⟩
  rw [buildChunks_length file chunkSize hc, totalChunks, ceil_div_eq _ _ hc]

/-- Witness for claim C5 on a five-byte file with chunk size two. -/
theorem multipart_chunking_roundtrip_witness :
    0 < 2
    ∧ ((buildChunks [10, 20, 30, 40, 50] 2).length
          = totalChunks ([10, 20, 30, 40, 50] : List Nat).length 2
        ∧ (buildChunks [10, 20, 30, 40, 50] 2).flatten = [10, 20, 30, 40, 50]) :=
  ⟨by decide, multipart_chunking_roundtrip [10, 20, 30, 40, 50] 2 (by decide)⟩

/-- Claim C6, counterexample: a 401 error response whose config does not yet
carry the retry marker is re-issued by the api-client response interceptor
rather than rejected, and the useHealth query configures a custom retry
count of 3. -/
theorem retry_on_401_counterexample :
    apiClientResponseErrorInterceptor (some 401) { retryFlag := false }
      = InterceptorOutcome.reissue { retryFlag := true }
    ∧ apiClientResponseErrorInterceptor (some 401) { retryFlag := false }
      ≠ InterceptorOutcome.reject
    ∧ useHealthRetryCount = 3 := by decide

/-- Claim C6, amended: the api-client response interceptor re-issues a
failed request exactly when the status is 401 and the retry marker is not
yet set, and the re-issued config carries the marker, so a request is
re-issued at most once; requests whose config already carries the marker
are always rejected; in addition the useHealth query configures retry 3. -/
theorem retry_behavior (status : Option Nat) (originalRequest : AxiosRequestConfig) :
    (apiClientResponseErrorInterceptor status originalRequest
        = InterceptorOutcome.reissue { retryFlag := true }
      ↔ status = some 401 ∧ originalRequest.retryFlag = false)
    ∧ apiClientResponseErrorInterceptor status { retryFlag := true } = InterceptorOutcome.reject
    ∧ useHealthRetryCount = 3 := by
  refine ⟨⟨?_, ?_⟩, ?_, rfl⟩
  · intro h
    unfold apiClientResponseErrorInterceptor at h
    by_cases hc : (status == some 401 && !originalRequest.retryFlag) = true
    · simpa only [Bool.and_eq_true, beq_iff_eq, Bool.not_eq_true'] using hc
    · rw [if_neg hc] at h
      exact absurd h (by decide)
  · rintro ⟨rfl, hr⟩
    unfold apiClientResponseErrorInterceptor
    rw [if_pos (by simp [hr])]
  · unfold apiClientResponseErrorInterceptor
    simp

/-- Claim C7, counterexample: the status value success is admitted by the
ProcessingStatus union type of the client processing module but is not one
of the four claimed enum values pending, processing, completed, failed. -/
theorem processing_status_counterexample :
    processingStatusValues.contains "success" = true
    ∧ specAIJobStatusEnum.contains "success" = false := by decide

/-- Claim C7, amended: the ProcessingStatus type of the client processing
module admits exactly the status values success and error, neither of which
belongs to the claimed four-value enum; the ai_jobs status column is an
unconstrained string whose default, pending, is the only point of contact
with the claimed enum. -/
theorem processing_status_enum_actual :
    processingStatusValues.all (fun s => !(specAIJobStatusEnum.contains s)) = true
    ∧ specAIJobStatusEnum.contains aiJobsStatusDefault = true := by decide

/-- Claim C8, counterexample: a request for /dashboard carrying a token
cookie with the empty value is redirected to /login by the middleware,
whereas the claim (which distinguishes only presence of the cookie) puts
this request in the pass-through case. -/
theorem middleware_empty_cookie_counterexample :
    middleware { tokenCookie := some "", pathname := "/dashboard" }
      = MwResult.redirectLogin "/dashboard"
    ∧ middleware { tokenCookie := some "", pathname := "/dashboard" } ≠ MwResult.next := by
  decide

/-- Claim C8, amended: with token presence read as JavaScript truthiness of
the cookie value (absent or empty is falsy): a request without a truthy
token whose pathname starts with a protected prefix is redirected to /login
with the from parameter set to the pathname; a request with a truthy token
whose pathname starts with an auth-page prefix is redirected to /dashboard;
every other request passes through unchanged. -/
theorem middleware_routing (r : MwRequest) :
    (jsTruthyStr r.tokenCookie = false
        ∧ (∃ p ∈ protectedPaths, strStartsWith r.pathname p = true) →
      middleware r = MwResult.redirectLogin r.pathname)
    ∧ (jsTruthyStr r.tokenCookie = true
        ∧ (∃ p ∈ authPaths, strStartsWith r.pathname p = true) →
      middleware r = MwResult.redirectDashboard)
    ∧ (¬(jsTruthyStr r.tokenCookie = false
          ∧ (∃ p ∈ protectedPaths, strStartsWith r.pathname p = true))
        ∧ ¬(jsTruthyStr r.tokenCookie = true
          ∧ (∃ p ∈ authPaths, strStartsWith r.pathname p = true)) →
      middleware r = MwResult.next) := by
  refine ⟨?_, ?_, ?_⟩
  · rintro ⟨htok, hex⟩
    have hprot : protectedPaths.any (fun p => strStartsWith r.pathname p) = true :=
      List.any_eq_true.mpr hex
    simp [middleware, htok, hprot]
  · rintro ⟨htok, hex⟩
    have hauth : authPaths.any (fun p => strStartsWith r.pathname p) = true :=
      List.any_eq_true.mpr hex
    simp [middleware, htok, hauth]
  · rintro ⟨h1, h2⟩
    rw [not_and] at h1 h2
    cases htok : jsTruthyStr r.tokenCookie with
    | false =>
      have hprot : protectedPaths.any (fun p => strStartsWith r.pathname p) = false := by
        cases hany : protectedPaths.any (fun p => strStartsWith r.pathname p) with
        | false => rfl
        | true => exact absurd (List.any_eq_true.mp hany) (h1 htok)
      simp [middleware, htok, hprot]
    | true =>
      have hauth : authPaths.any (fun p => strStartsWith r.pathname p) = false := by
        cases hany : authPaths.any (fun p => strStartsWith r.pathname p) with
        | false => rfl
        | true => exact absurd (List.any_eq_true.mp hany) (h2 htok)
      simp [middleware, htok, hauth]

/-- Witness for the amended claim C8 at three concrete requests, one per
branch. -/
theorem middleware_routing_witness :
    middleware { tokenCookie := none, pathname := "/dashboard" }
      = MwResult.redirectLogin "/dashboard"
    ∧ middleware { tokenCookie := some "jwt", pathname := "/login" }
      = MwResult.redirectDashboard
    ∧ middleware { tokenCookie := some "jwt", pathname := "/dashboard" } = MwResult.next :=
  ⟨(middleware_routing { tokenCookie := none, pathname := "/dashboard" }).1 (by decide),
   (middleware_routing { tokenCookie := some "jwt", pathname := "/login" }).2.1 (by decide),
   (middleware_routing { tokenCookie := some "jwt", pathname := "/dashboard" }).2.2 (by decide)⟩

/-- Claim C9: toggling a file id twice restores the original selection, a
single toggle flips the membership of exactly that file id, and the
membership of every other file id is unchanged. -/
theorem toggle_selection_involution (selectedFiles : Finset String) (fileId other : String) :
    toggleFileSelection (toggleFileSelection selectedFiles fileId) fileId = selectedFiles
    ∧ (fileId ∈ toggleFileSelection selectedFiles fileId ↔ fileId ∉ selectedFiles)
    ∧ (other ≠ fileId →
        (other ∈ toggleFileSelection selectedFiles fileId ↔ other ∈ selectedFiles)) := by
  by_cases h : fileId ∈ selectedFiles
  · refine ⟨?_, ?_, ?_⟩
    · simp [toggleFileSelection, h, Finset.insert_erase]
    · simp [toggleFileSelection, h]
    · intro hne
      simp [toggleFileSelection, h, Finset.mem_erase, hne]
  · refine ⟨?_, ?_, ?_⟩
    · simp [toggleFileSelection, h, Finset.erase_insert]
    · simp [toggleFileSelection, h]
    · intro hne
      simp [toggleFileSelection, h, Finset.mem_insert, hne]

/-- Witness for claim C9 on the singleton selection containing a with file
ids a and b. -/
theorem toggle_selection_involution_witness :
    toggleFileSelection (toggleFileSelection {"a"} "a") "a" = ({"a"} : Finset String)
    ∧ ("a" ∈ toggleFileSelection {"a"} "a" ↔ "a" ∉ ({"a"} : Finset String))
    ∧ ("b" ∈ toggleFileSelection {"a"} "a" ↔ "b" ∈ ({"a"} : Finset String)) :=
  ⟨(toggle_selection_involution {"a"} "a" "b").1,
   (toggle_selection_involution {"a"} "a" "b").2.1,
   (toggle_selection_involution {"a"} "a" "b").2.2 (by decide)⟩

/-- Claim C10: for every non-negative byte count, the formatSize loop
terminates after at most 4 divisions (the final unit index, which counts the
divisions performed, is at most 4), the chosen unit index stays within the
units array, and whenever the chosen unit is not the last one the scaled
value shown is below 1024. -/
theorem formatSize_bounds (bytes : ℚ) (hb : 0 ≤ bytes) :
    (formatSize bytes).2 ≤ 4
    ∧ (formatSize bytes).2 < formatSizeUnits.length
    ∧ ((formatSize bytes).2 < formatSizeUnits.length - 1 → (formatSize bytes).1 < 1024) := by
  unfold formatSize
  have h := formatSizeLoop_spec 4 bytes 0 (by omega) (by omega)
  have h5 : formatSizeUnits.length = 5 := rfl
  refine ⟨h.1, by omega, ?_⟩
  rw [h5]
  intro hlt
  exact h.2 (by omega)

/-- Witness for claim C10 at one mebibyte. -/
theorem formatSize_bounds_witness :
    (0 : ℚ) ≤ 1048576
    ∧ ((formatSize 1048576).2 ≤ 4
        ∧ (formatSize 1048576).2 < formatSizeUnits.length
        ∧ ((formatSize 1048576).2 < formatSizeUnits.length - 1 →
            (formatSize 1048576).1 < 1024)) :=
  ⟨by norm_num, formatSize_bounds 1048576 (by norm_num)⟩
